import Mathlib

/-!
Shallow embedding of `src/app/(tabs)/index.tsx` (HomeScreen): the fetch
phase (`fetchData`), the per-row transform (`renderEventCard`), and the
render phase, together with theorems checking the specification's claims.

JavaScript values that the screen inspects with truthiness tests are
modelled as `Option String`: `none` stands for `undefined`/`null`, and an
empty string is falsy just as in JavaScript.  The ambient JavaScript
`Date` machinery (`new Date(s)`, `toLocaleDateString`,
`toLocaleTimeString`) is not code of this repository; it is modelled as
an explicit `DateRuntime` parameter: `parse s = none` models
`isNaN(new Date(s).getTime())`, and the two formatters model the
locale-dependent formatting calls with the fixed option objects.
-/

/-- JavaScript truthiness restricted to the string-or-undefined values the
screen inspects: `undefined`/`null` and `""` are falsy, every other string
is truthy. -/
def truthy : Option String → Bool
  | none => false
  | some s => s ≠ ""

/-- JavaScript `a || b` on string-or-undefined values: the left operand when
it is truthy, otherwise the right operand (whatever it is). -/
def jsOr (a b : Option String) : Option String :=
  if truthy a then a else b

/-- One row of the table API response: the `values` object (a mapping from
column identifier to string value, modelled as an association list) plus the
optional `id` and `href` used for list keys. -/
structure RawEventRow where
  values : List (String × String)
  id : Option String := none
  href : Option String := none

/-- `item.values?.[k]`: look a column identifier up in the row's `values`
object; `none` models an absent key. -/
def lookupValue (r : RawEventRow) (k : String) : Option String :=
  (r.values.find? (fun p => p.1 == k)).map Prod.snd

/-- Line 64: `item.values?.['Start'] || item.values?.['c-xM1UXlWtET']`. -/
def eventStartDateTimeString (r : RawEventRow) : Option String :=
  jsOr (lookupValue r "Start") (lookupValue r "c-xM1UXlWtET")

/-- Line 65: `item.values?.['Description'] || item.values?.['c-CuhtPto9h7']`. -/
def eventDescription (r : RawEventRow) : Option String :=
  jsOr (lookupValue r "Description") (lookupValue r "c-CuhtPto9h7")

/-- Line 66: `item.values?.['Sign Up Link'] || item.values?.['c-oQ9f2MSLrG']`. -/
def signUpLink (r : RawEventRow) : Option String :=
  jsOr (lookupValue r "Sign Up Link") (lookupValue r "c-oQ9f2MSLrG")

/-- Line 67: `item.values?.['GraphicURL'] || item.values?.['c-65xmsGtRJz']`. -/
def graphicUrl (r : RawEventRow) : Option String :=
  jsOr (lookupValue r "GraphicURL") (lookupValue r "c-65xmsGtRJz")

/-- The ambient JavaScript date machinery used by the transform.
`parse s` is `some t` when `new Date(s)` yields a valid instant `t`
(epoch milliseconds) and `none` when `isNaN(dateObj.getTime())`;
`fmtDate`/`fmtTime` model `toLocaleDateString`/`toLocaleTimeString` with
the fixed option objects of lines 79-83. -/
structure DateRuntime where
  parse : String → Option Int
  fmtDate : Int → String
  fmtTime : Int → String

/-- Lines 69-89 of `renderEventCard`: compute `formattedDate` and
`formattedTime` from the resolved start string.  (The `catch` branch of
lines 85-88 is unreachable: the `Date` constructor and the two locale
formatters with these fixed valid option objects do not throw.) -/
def formattedDateTime (rt : DateRuntime) (r : RawEventRow) : String × String :=
  let s := eventStartDateTimeString r
  if truthy s then
    match rt.parse (s.getD "") with
    | none => ("Invalid Date", "Invalid Time")
    | some t => (rt.fmtDate t, rt.fmtTime t)
  else
    ("Date not available", "Time not available")

/-- The sign-up area of a card: either the actionable `Pressable` labelled
"Sign Up" opening `url`, or the plain placeholder text. -/
inductive SignUpControl where
  | button (url : String)
  | placeholder (text : String)
deriving DecidableEq, Repr

/-- `true` exactly when the control is the actionable "Sign Up" button. -/
def SignUpControl.isButton : SignUpControl → Bool
  | .button _ => true
  | .placeholder _ => false

/-- The display-relevant content of one rendered card. -/
structure EventCard where
  image : Option String
  formattedDate : String
  formattedTime : String
  description : Option String
  signUp : SignUpControl
deriving DecidableEq, Repr

/-- Lines 63-133: the per-row transform producing one card's content.
`image` is present only when `graphicUrl` is truthy (line 101),
`description` only when truthy (line 120), and the sign-up area is the
button when `signUpLink` is truthy, else the placeholder (lines 123-129). -/
def renderEventCard (rt : DateRuntime) (item : RawEventRow) : EventCard :=
  { image := if truthy (graphicUrl item) then graphicUrl item else none
    formattedDate := (formattedDateTime rt item).1
    formattedTime := (formattedDateTime rt item).2
    description := if truthy (eventDescription item) then eventDescription item else none
    signUp :=
      if truthy (signUpLink item) then
        .button ((signUpLink item).getD "")
      else
        .placeholder "(No sign-up link provided)" }

/-- The parsed success response body: a JSON object whose `items` field (an
array of rows) may be absent. -/
structure ApiData where
  items : Option (List RawEventRow)

/-- The outcome of the single `axios.get` call, as classified by the
`catch` chain of lines 44-53: success; a cancellation/timeout
(`axios.isCancel`); a response with a non-2xx status (`e.response`,
carrying the numeric status and the `JSON.stringify`-serialized body); a
request that got no response (`e.request`); or any other failure with its
message. -/
inductive AxiosOutcome where
  | success (data : ApiData)
  | cancel
  | response (status : Nat) (serializedBody : String)
  | requestNoResponse
  | other (message : String)

/-- The component state after `fetchData` finishes: the `data` and `error`
state variables, plus whether the HTTP request was actually issued. -/
structure FetchResult where
  data : Option ApiData
  error : Option String
  requestMade : Bool

/-- Line 24: `const requestTimeout = 30000`. -/
def requestTimeout : Nat := 30000

/-- Lines 17-57: the fetch phase.  `apiToken` models
`process.env.EXPO_PUBLIC_CODA_API_TOKEN`; a falsy token short-circuits to
the configuration error before any request is made; otherwise the outcome
of the single `axios.get` is classified exactly as the `catch` chain does. -/
def fetchData (apiToken : Option String) (outcome : AxiosOutcome) : FetchResult :=
  if truthy apiToken then
    match outcome with
    | .success d =>
        { data := some d, error := none, requestMade := true }
    | .cancel =>
        { data := none
          error := some ("Request to Coda Table API timed out after "
            ++ toString (requestTimeout / 1000) ++ " seconds (axios).")
          requestMade := true }
    | .response status body =>
        { data := none
          error := some ("Server error! Status: " ++ toString status
            ++ ". Message: " ++ body)
          requestMade := true }
    | .requestNoResponse =>
        { data := none
          error := some "No response received from Coda Table API (axios)."
          requestMade := true }
    | .other msg =>
        { data := none
          error := some ("Error: " ++ msg)
          requestMade := true }
  else
    { data := none
      error := some "API Token is not configured. Please set EXPO_PUBLIC_CODA_API_TOKEN in your .env file."
      requestMade := false }

/-- What the screen body shows below the fixed header, per lines 135-176:
the loading message, the error message, the list of cards, or the literal
"No events found." message. -/
inductive ScreenView where
  | loadingView (message : String)
  | errorView (message : String)
  | listView (cards : List EventCard)
  | emptyView (message : String)
deriving Repr

/-- Lines 135-176: the render phase on the three state variables.  The list
is rendered only when `data && data.items && data.items.length > 0`
(line 165); note a present-but-empty `items` array is truthy in JavaScript
but fails the length test. -/
def render (rt : DateRuntime) (loading : Bool) (error : Option String)
    (data : Option ApiData) : ScreenView :=
  if loading then
    .loadingView "Loading event data from Coda..."
  else if truthy error then
    .errorView ("Error: " ++ (error.getD ""))
  else
    match data with
    | some d =>
        match d.items with
        | some items =>
            if items.length > 0 then
              .listView (items.map (renderEventCard rt))
            else
              .emptyView "No events found."
        | none => .emptyView "No events found."
    | none => .emptyView "No events found."

/-- `sub` occurs as a contiguous substring of `s`. -/
def ContainsSubstr (s sub : String) : Prop :=
  ∃ pre post, s = pre ++ sub ++ post

/-! ## Helper lemmas shared by several claim theorems -/

theorem strAppend_assoc (a b c : String) : a ++ b ++ c = a ++ (b ++ c) := by
  apply String.ext
  simp [String.data_append, List.append_assoc]

theorem strAppend_empty (a : String) : a ++ "" = a := by
  apply String.ext
  simp [String.data_append]

theorem jsOr_of_truthy_left {a : Option String} (b : Option String) (v : String)
    (ha : a = some v) (hv : v ≠ "") : jsOr a b = some v := by
  subst ha
  simp [jsOr, truthy, hv]

theorem jsOr_of_falsy_left {a : Option String} (b : Option String)
    (ha : truthy a = false) : jsOr a b = b := by
  simp [jsOr, ha]

theorem formattedDateTime_of_falsy (rt : DateRuntime) (r : RawEventRow)
    (h : truthy (eventStartDateTimeString r) = false) :
    formattedDateTime rt r = ("Date not available", "Time not available") := by
  unfold formattedDateTime
  simp [h]

theorem formattedDateTime_of_some (rt : DateRuntime) (r : RawEventRow) (s : String)
    (hs : eventStartDateTimeString r = some s) (hne : s ≠ "") :
    formattedDateTime rt r =
      (match rt.parse s with
        | none => ("Invalid Date", "Invalid Time")
        | some t => (rt.fmtDate t, rt.fmtTime t)) := by
  unfold formattedDateTime
  rw [hs]
  simp [truthy, hne]

theorem renderEventCard_formattedDate (rt : DateRuntime) (r : RawEventRow) :
    (renderEventCard rt r).formattedDate = (formattedDateTime rt r).1 := rfl

theorem renderEventCard_formattedTime (rt : DateRuntime) (r : RawEventRow) :
    (renderEventCard rt r).formattedTime = (formattedDateTime rt r).2 := rfl

/-- A concrete date runtime used to evaluate witnesses: it parses exactly the
spec's sample timestamp and formats it the way the spec's sample locale does. -/
def sampleRuntime : DateRuntime :=
  { parse := fun s => if s = "2025-03-01T18:30:00Z" then some 1740853800000 else none
    fmtDate := fun _ => "March 1, 2025"
    fmtTime := fun _ => "1:30 PM" }

/-! ## Claim theorems -/

/-- C1: with the API token absent, `fetchData` goes straight to the error
state, the message contains "API Token is not configured", and no HTTP
request is issued. -/
theorem missing_token_no_request (outcome : AxiosOutcome) :
    (fetchData none outcome).requestMade = false ∧
    ∃ msg, (fetchData none outcome).error = some msg ∧
      ContainsSubstr msg "API Token is not configured" := by
  refine ⟨rfl, ?_⟩
  exact ⟨_, rfl, "", ". Please set EXPO_PUBLIC_CODA_API_TOKEN in your .env file.", by decide⟩

/-- C3: a client-side timeout/cancellation produces the error message naming
the configured timeout in seconds (30). -/
theorem timeout_message_names_thirty (tok : Option String) (h : truthy tok = true) :
    (fetchData tok AxiosOutcome.cancel).error =
      some "Request to Coda Table API timed out after 30 seconds (axios)." ∧
    ContainsSubstr "Request to Coda Table API timed out after 30 seconds (axios)." "30 seconds" := by
  constructor
  · simp [fetchData, h]
    decide
  · exact ⟨"Request to Coda Table API timed out after ", " (axios).", by decide⟩

theorem timeout_message_names_thirty_witness :
    (fetchData (some "t") AxiosOutcome.cancel).error =
      some "Request to Coda Table API timed out after 30 seconds (axios)." ∧
    ContainsSubstr "Request to Coda Table API timed out after 30 seconds (axios)." "30 seconds" :=
  timeout_message_names_thirty (some "t") (by decide)

/-- C6: a non-2xx response produces an error message containing the numeric
status code and the serialized response body. -/
theorem server_error_message (tok : Option String) (h : truthy tok = true)
    (status : Nat) (body : String) :
    ∃ msg, (fetchData tok (AxiosOutcome.response status body)).error = some msg ∧
      ContainsSubstr msg (toString status) ∧ ContainsSubstr msg body := by
  refine ⟨"Server error! Status: " ++ toString status ++ ". Message: " ++ body, ?_, ?_, ?_⟩
  · simp [fetchData, h]
  · exact ⟨"Server error! Status: ", ". Message: " ++ body, by
      rw [strAppend_assoc, strAppend_assoc]⟩
  · exact ⟨"Server error! Status: " ++ toString status ++ ". Message: ", "", by
      rw [strAppend_empty]⟩

theorem server_error_message_witness :
    ∃ msg,
      (fetchData (some "t") (AxiosOutcome.response 500 "\x7b\"msg\":\"fail\"\x7d")).error
        = some msg ∧
      ContainsSubstr msg (toString 500) ∧ ContainsSubstr msg "\x7b\"msg\":\"fail\"\x7d" :=
  server_error_message (some "t") (by decide) 500 "\x7b\"msg\":\"fail\"\x7d"

/-- C2: for every row, `formattedDate`/`formattedTime` are non-empty and are
exactly one of a real formatted value, the "not available" sentinels (start
field falsy), or the "Invalid" sentinels (start field present but
unparseable); no other output is possible.  The locale formatters are
assumed to produce non-empty strings, as `toLocaleDateString` /
`toLocaleTimeString` with the fixed valid option objects do. -/
theorem transform_formatted_classification (rt : DateRuntime) (r : RawEventRow)
    (hfd : ∀ t, rt.fmtDate t ≠ "") (hft : ∀ t, rt.fmtTime t ≠ "") :
    (renderEventCard rt r).formattedDate ≠ "" ∧
    (renderEventCard rt r).formattedTime ≠ "" ∧
    ((truthy (eventStartDateTimeString r) = false ∧
        (renderEventCard rt r).formattedDate = "Date not available" ∧
        (renderEventCard rt r).formattedTime = "Time not available") ∨
     (∃ s, eventStartDateTimeString r = some s ∧ s ≠ "" ∧ rt.parse s = none ∧
        (renderEventCard rt r).formattedDate = "Invalid Date" ∧
        (renderEventCard rt r).formattedTime = "Invalid Time") ∨
     (∃ s t, eventStartDateTimeString r = some s ∧ s ≠ "" ∧ rt.parse s = some t ∧
        (renderEventCard rt r).formattedDate = rt.fmtDate t ∧
        (renderEventCard rt r).formattedTime = rt.fmtTime t)) := by
  rw [renderEventCard_formattedDate, renderEventCard_formattedTime]
  cases htr : truthy (eventStartDateTimeString r) with
  | false =>
      rw [formattedDateTime_of_falsy rt r htr]
      exact ⟨by decide, by decide, Or.inl ⟨rfl, rfl, rfl⟩⟩
  | true =>
      obtain ⟨s, hs⟩ : ∃ s, eventStartDateTimeString r = some s := by
        cases h : eventStartDateTimeString r with
        | none => rw [h] at htr; simp [truthy] at htr
        | some v => exact ⟨v, rfl⟩
      have hne : s ≠ "" := by
        rw [hs] at htr
        simpa [truthy] using htr
      rw [formattedDateTime_of_some rt r s hs hne]
      cases hp : rt.parse s with
      | none =>
          exact ⟨(by decide : ("Invalid Date" : String) ≠ ""),
            (by decide : ("Invalid Time" : String) ≠ ""),
            Or.inr (Or.inl ⟨s, hs, hne, hp, rfl, rfl⟩)⟩
      | some t =>
          exact ⟨hfd t, hft t, Or.inr (Or.inr ⟨s, t, hs, hne, hp, rfl, rfl⟩)⟩

/-- A row whose `Start` column holds an unparseable string (witness data). -/
def invalidStartRow : RawEventRow := { values := [("Start", "not-a-date")] }

theorem transform_formatted_classification_witness :
    (renderEventCard sampleRuntime invalidStartRow).formattedDate ≠ "" ∧
    (renderEventCard sampleRuntime invalidStartRow).formattedTime ≠ "" ∧
    ((truthy (eventStartDateTimeString invalidStartRow) = false ∧
        (renderEventCard sampleRuntime invalidStartRow).formattedDate = "Date not available" ∧
        (renderEventCard sampleRuntime invalidStartRow).formattedTime = "Time not available") ∨
     (∃ s, eventStartDateTimeString invalidStartRow = some s ∧ s ≠ "" ∧
        sampleRuntime.parse s = none ∧
        (renderEventCard sampleRuntime invalidStartRow).formattedDate = "Invalid Date" ∧
        (renderEventCard sampleRuntime invalidStartRow).formattedTime = "Invalid Time") ∨
     (∃ s t, eventStartDateTimeString invalidStartRow = some s ∧ s ≠ "" ∧
        sampleRuntime.parse s = some t ∧
        (renderEventCard sampleRuntime invalidStartRow).formattedDate = sampleRuntime.fmtDate t ∧
        (renderEventCard sampleRuntime invalidStartRow).formattedTime = sampleRuntime.fmtTime t)) :=
  transform_formatted_classification sampleRuntime invalidStartRow
    (fun _ => (by decide : ("March 1, 2025" : String) ≠ ""))
    (fun _ => (by decide : ("1:30 PM" : String) ≠ ""))

/-- A row holding an empty human-readable `Description` value alongside a
non-empty code-key value (counterexample data for C4). -/
def bothKeysRow : RawEventRow :=
  { values := [("Description", ""), ("c-CuhtPto9h7", "B")] }

/-- C4 counterexample: in `bothKeysRow` both the human-readable key and the
code key are present, yet resolution yields the code key's value "B", not
the human-readable key's value "" — the human-readable key does not win by
mere presence. -/
theorem human_key_presence_does_not_win :
    (lookupValue bothKeysRow "Description").isSome = true ∧
    (lookupValue bothKeysRow "c-CuhtPto9h7").isSome = true ∧
    eventDescription bothKeysRow = some "B" ∧
    eventDescription bothKeysRow ≠ lookupValue bothKeysRow "Description" := by
  refine ⟨rfl, rfl, by decide, by decide⟩

/-- C4 amended: for each of the four logical fields, resolution prefers the
human-readable key only when its value is truthy (present and non-empty);
when the human-readable value is falsy (absent or empty) the field resolves
to whatever the code key holds, so with both keys absent the field is
undefined. -/
theorem field_resolution_amended (r : RawEventRow) :
    (∀ v, lookupValue r "Start" = some v → v ≠ "" →
        eventStartDateTimeString r = some v) ∧
    (truthy (lookupValue r "Start") = false →
        eventStartDateTimeString r = lookupValue r "c-xM1UXlWtET") ∧
    (∀ v, lookupValue r "Description" = some v → v ≠ "" →
        eventDescription r = some v) ∧
    (truthy (lookupValue r "Description") = false →
        eventDescription r = lookupValue r "c-CuhtPto9h7") ∧
    (∀ v, lookupValue r "Sign Up Link" = some v → v ≠ "" →
        signUpLink r = some v) ∧
    (truthy (lookupValue r "Sign Up Link") = false →
        signUpLink r = lookupValue r "c-oQ9f2MSLrG") ∧
    (∀ v, lookupValue r "GraphicURL" = some v → v ≠ "" →
        graphicUrl r = some v) ∧
    (truthy (lookupValue r "GraphicURL") = false →
        graphicUrl r = lookupValue r "c-65xmsGtRJz") :=
  ⟨fun v hv hne => jsOr_of_truthy_left _ v hv hne,
   fun hf => jsOr_of_falsy_left _ hf,
   fun v hv hne => jsOr_of_truthy_left _ v hv hne,
   fun hf => jsOr_of_falsy_left _ hf,
   fun v hv hne => jsOr_of_truthy_left _ v hv hne,
   fun hf => jsOr_of_falsy_left _ hf,
   fun v hv hne => jsOr_of_truthy_left _ v hv hne,
   fun hf => jsOr_of_falsy_left _ hf⟩

/-- A row with every field present under its human-readable key
(witness data). -/
def fullRow : RawEventRow :=
  { values := [("Start", "2025-03-01T18:30:00Z"), ("Description", "A"),
               ("Sign Up Link", "https://example.org/s"), ("GraphicURL", "https://example.org/g.png")] }

theorem field_resolution_amended_witness :
    eventStartDateTimeString fullRow = some "2025-03-01T18:30:00Z" ∧
    eventDescription fullRow = some "A" ∧
    signUpLink fullRow = some "https://example.org/s" ∧
    graphicUrl fullRow = some "https://example.org/g.png" ∧
    eventDescription bothKeysRow = lookupValue bothKeysRow "c-CuhtPto9h7" :=
  ⟨(field_resolution_amended fullRow).1 _ rfl (by decide),
   (field_resolution_amended fullRow).2.2.1 _ rfl (by decide),
   (field_resolution_amended fullRow).2.2.2.2.1 _ rfl (by decide),
   (field_resolution_amended fullRow).2.2.2.2.2.2.1 _ rfl (by decide),
   (field_resolution_amended bothKeysRow).2.2.2.1 (by decide)⟩

/-- C5: a row whose resolved start value is falsy gets the "not available"
sentinels; a row whose resolved start value is present but unparseable gets
the "Invalid" sentinels. -/
theorem start_sentinel_values (rt : DateRuntime) (r : RawEventRow) :
    (truthy (eventStartDateTimeString r) = false →
      (renderEventCard rt r).formattedDate = "Date not available" ∧
      (renderEventCard rt r).formattedTime = "Time not available") ∧
    (∀ s, eventStartDateTimeString r = some s → s ≠ "" → rt.parse s = none →
      (renderEventCard rt r).formattedDate = "Invalid Date" ∧
      (renderEventCard rt r).formattedTime = "Invalid Time") := by
  constructor
  · intro h
    rw [renderEventCard_formattedDate, renderEventCard_formattedTime,
      formattedDateTime_of_falsy rt r h]
    exact ⟨rfl, rfl⟩
  · intro s hs hne hp
    rw [renderEventCard_formattedDate, renderEventCard_formattedTime,
      formattedDateTime_of_some rt r s hs hne, hp]
    exact ⟨rfl, rfl⟩

/-- A row with no start column at all (witness data). -/
def noStartRow : RawEventRow := { values := [("Description", "A")] }

theorem start_sentinel_values_witness :
    ((renderEventCard sampleRuntime noStartRow).formattedDate = "Date not available" ∧
     (renderEventCard sampleRuntime noStartRow).formattedTime = "Time not available") ∧
    ((renderEventCard sampleRuntime invalidStartRow).formattedDate = "Invalid Date" ∧
     (renderEventCard sampleRuntime invalidStartRow).formattedTime = "Invalid Time") :=
  ⟨(start_sentinel_values sampleRuntime noStartRow).1 (by decide),
   (start_sentinel_values sampleRuntime invalidStartRow).2 "not-a-date"
     (by decide) (by decide) (by decide)⟩

/-- C7: a successful fetch with an empty `items` array renders the literal
"No events found." message and no list rows. -/
theorem empty_items_no_events (rt : DateRuntime) (tok : Option String)
    (h : truthy tok = true) :
    render rt false (fetchData tok (AxiosOutcome.success { items := some [] })).error
        (fetchData tok (AxiosOutcome.success { items := some [] })).data
      = ScreenView.emptyView "No events found." ∧
    ∀ cards,
      render rt false (fetchData tok (AxiosOutcome.success { items := some [] })).error
          (fetchData tok (AxiosOutcome.success { items := some [] })).data
        ≠ ScreenView.listView cards := by
  have hfd : fetchData tok (AxiosOutcome.success { items := some [] }) =
      { data := some { items := some [] }, error := none, requestMade := true } := by
    simp [fetchData, h]
  rw [hfd]
  refine ⟨rfl, fun cards => ?_⟩
  intro hcon
  simp [render, truthy] at hcon

theorem empty_items_no_events_witness :
    render sampleRuntime false
        (fetchData (some "t") (AxiosOutcome.success { items := some [] })).error
        (fetchData (some "t") (AxiosOutcome.success { items := some [] })).data
      = ScreenView.emptyView "No events found." ∧
    ∀ cards,
      render sampleRuntime false
          (fetchData (some "t") (AxiosOutcome.success { items := some [] })).error
          (fetchData (some "t") (AxiosOutcome.success { items := some [] })).data
        ≠ ScreenView.listView cards :=
  empty_items_no_events sampleRuntime (some "t") (by decide)

/-- C8: a successful fetch with a non-empty `items` array renders exactly one
card per item, produced by the per-row transform, in the order the items
appear in the response — no sorting or filtering. -/
theorem loaded_items_render_in_order (rt : DateRuntime) (tok : Option String)
    (h : truthy tok = true) (items : List RawEventRow) (hne : items ≠ []) :
    render rt false (fetchData tok (AxiosOutcome.success { items := some items })).error
        (fetchData tok (AxiosOutcome.success { items := some items })).data
      = ScreenView.listView (items.map (renderEventCard rt)) ∧
    (items.map (renderEventCard rt)).length = items.length ∧
    ∀ (i : Nat) (hi : i < items.length) (him : i < (items.map (renderEventCard rt)).length),
      (items.map (renderEventCard rt))[i] = renderEventCard rt items[i] := by
  have hfd : fetchData tok (AxiosOutcome.success { items := some items }) =
      { data := some { items := some items }, error := none, requestMade := true } := by
    simp [fetchData, h]
  rw [hfd]
  have hlen : 0 < items.length := List.length_pos.mpr hne
  refine ⟨?_, by simp, ?_⟩
  · simp [render, truthy, hlen]
  · intro i _ him
    simp

theorem loaded_items_render_in_order_witness :
    render sampleRuntime false
        (fetchData (some "t") (AxiosOutcome.success { items := some [fullRow] })).error
        (fetchData (some "t") (AxiosOutcome.success { items := some [fullRow] })).data
      = ScreenView.listView ([fullRow].map (renderEventCard sampleRuntime)) ∧
    ([fullRow].map (renderEventCard sampleRuntime)).length = [fullRow].length ∧
    ∀ (i : Nat) (_hi : i < [fullRow].length)
      (him : i < ([fullRow].map (renderEventCard sampleRuntime)).length),
      ([fullRow].map (renderEventCard sampleRuntime))[i]
        = renderEventCard sampleRuntime [fullRow][i] :=
  loaded_items_render_in_order sampleRuntime (some "t") (by decide) [fullRow] (by simp)

/-- C9: a card carries the actionable "Sign Up" button exactly when the
sign-up link resolves to a truthy value; otherwise it carries the fixed
placeholder text and no button. -/
theorem signup_button_iff_link (rt : DateRuntime) (r : RawEventRow) :
    ((renderEventCard rt r).signUp.isButton = true ↔ truthy (signUpLink r) = true) ∧
    (truthy (signUpLink r) = false →
      (renderEventCard rt r).signUp = SignUpControl.placeholder "(No sign-up link provided)") := by
  cases hl : truthy (signUpLink r) with
  | true =>
      refine ⟨by simp [renderEventCard, hl, SignUpControl.isButton], fun hcon => ?_⟩
      exact Bool.noConfusion hcon
  | false =>
      refine ⟨by simp [renderEventCard, hl, SignUpControl.isButton], fun _ => ?_⟩
      simp [renderEventCard, hl]

theorem signup_button_iff_link_witness :
    (renderEventCard sampleRuntime fullRow).signUp.isButton = true ∧
    (renderEventCard sampleRuntime noStartRow).signUp
      = SignUpControl.placeholder "(No sign-up link provided)" :=
  ⟨(signup_button_iff_link sampleRuntime fullRow).1.mpr (by decide),
   (signup_button_iff_link sampleRuntime noStartRow).2 (by decide)⟩

/-- C10: presence is JavaScript truthiness, not key existence — an
empty-string `Start` value (with nothing truthy under the code key) yields
the "not available" sentinels, and an empty-string `Start` value alongside
a non-empty code-key value resolves to the code-key value. -/
theorem empty_string_start_behaves_absent (rt : DateRuntime) (r : RawEventRow) :
    (lookupValue r "Start" = some "" →
      truthy (lookupValue r "c-xM1UXlWtET") = false →
      (renderEventCard rt r).formattedDate = "Date not available" ∧
      (renderEventCard rt r).formattedTime = "Time not available") ∧
    (∀ v, lookupValue r "Start" = some "" →
      lookupValue r "c-xM1UXlWtET" = some v → v ≠ "" →
      eventStartDateTimeString r = some v) := by
  constructor
  · intro hs hc
    have h1 : truthy (lookupValue r "Start") = false := by rw [hs]; decide
    have hstart : truthy (eventStartDateTimeString r) = false := by
      unfold eventStartDateTimeString
      rw [jsOr_of_falsy_left _ h1]
      exact hc
    rw [renderEventCard_formattedDate, renderEventCard_formattedTime,
      formattedDateTime_of_falsy rt r hstart]
    exact ⟨rfl, rfl⟩
  · intro v hs hc hne
    have h1 : truthy (lookupValue r "Start") = false := by rw [hs]; decide
    unfold eventStartDateTimeString
    rw [jsOr_of_falsy_left _ h1, hc]

/-- A row whose `Start` column holds the empty string (witness data). -/
def emptyStartRow : RawEventRow := { values := [("Start", "")] }

/-- A row with an empty `Start` value and a valid timestamp under the code
key (witness data). -/
def emptyStartCodeRow : RawEventRow :=
  { values := [("Start", ""), ("c-xM1UXlWtET", "2025-03-01T18:30:00Z")] }

theorem empty_string_start_behaves_absent_witness :
    ((renderEventCard sampleRuntime emptyStartRow).formattedDate = "Date not available" ∧
     (renderEventCard sampleRuntime emptyStartRow).formattedTime = "Time not available") ∧
    eventStartDateTimeString emptyStartCodeRow = some "2025-03-01T18:30:00Z" :=
  ⟨(empty_string_start_behaves_absent sampleRuntime emptyStartRow).1 (by decide) (by decide),
   (empty_string_start_behaves_absent sampleRuntime emptyStartCodeRow).2
     "2025-03-01T18:30:00Z" (by decide) (by decide) (by decide)⟩
